import Mathlib

/-!
Shallow embedding of the Twitch streaming model (src/buffer.py, src/network.py,
src/encoder.py, src/quality.py, src/simulation.py) and proofs about it.

Python floats are modelled as rationals (exact arithmetic over ℚ).
Randomness is modelled as an oracle: an infinite stream of the values that the
seeded numpy generator yields, with a cursor for how many samples were taken.
The transcendental helpers np.sin and np.pi are abstracted as an arbitrary
rational-valued function and constant; none of the properties settled here
depend on their values.
-/

namespace TwitchModel

/-! ## src/buffer.py — StreamBuffer -/

/-- Constructor parameters of `StreamBuffer.__init__`. -/
structure BufferConfig where
  max_level_s : ℚ
  initial_level_s : ℚ
  rebuffer_threshold_s : ℚ
  target_level_s : ℚ
  drain_rate_s_per_s : ℚ
  dt : ℚ
deriving DecidableEq

/-- The mutable attributes of a `StreamBuffer` object. -/
structure BufferState where
  level_s : ℚ
  is_stalled : Bool
  total_stall_time_s : ℚ
  stall_count : ℕ
deriving DecidableEq

/-- The dict returned by `StreamBuffer.step`. -/
structure BufferOutput where
  level_s : ℚ
  is_stalled : Bool
  stall_event : Bool
  resume_event : Bool
  overflow : Bool
deriving DecidableEq

namespace StreamBuffer

/-- The state `__init__` installs after its validation check passes. -/
def initState (c : BufferConfig) : BufferState :=
  { level_s := c.initial_level_s
    is_stalled := false
    total_stall_time_s := 0
    stall_count := 0 }

/-- `StreamBuffer.__init__`: raises ValueError iff
`rebuffer_threshold_s > max_level_s`. -/
def make (c : BufferConfig) : Except String BufferState :=
  if c.rebuffer_threshold_s > c.max_level_s then
    .error "rebuffer_threshold_s must be <= max_level_s"
  else
    .ok (initState c)

/-- `StreamBuffer.step`: advance by one time step.  Returns the updated
object state and the result dict. -/
def step (c : BufferConfig) (s : BufferState) (inflow_rate_s_per_s : ℚ) :
    BufferState × BufferOutput :=
  if s.is_stalled then
    -- While stalled only inflow occurs (drain is paused)
    let level := min c.max_level_s (s.level_s + inflow_rate_s_per_s * c.dt)
    let total := s.total_stall_time_s + c.dt
    if level ≥ c.rebuffer_threshold_s then
      ({ level_s := level, is_stalled := false,
         total_stall_time_s := total, stall_count := s.stall_count },
       { level_s := level, is_stalled := false, stall_event := false,
         resume_event := true, overflow := false })
    else
      ({ level_s := level, is_stalled := true,
         total_stall_time_s := total, stall_count := s.stall_count },
       { level_s := level, is_stalled := true, stall_event := false,
         resume_event := false, overflow := false })
  else
    -- Normal playback: drain at 1x speed
    let net_rate := inflow_rate_s_per_s - c.drain_rate_s_per_s
    let new_level := s.level_s + net_rate * c.dt
    if new_level ≥ c.max_level_s then
      ({ level_s := c.max_level_s, is_stalled := false,
         total_stall_time_s := s.total_stall_time_s, stall_count := s.stall_count },
       { level_s := c.max_level_s, is_stalled := false, stall_event := false,
         resume_event := false, overflow := true })
    else if new_level ≤ 0 then
      ({ level_s := 0, is_stalled := true,
         total_stall_time_s := s.total_stall_time_s + c.dt,
         stall_count := s.stall_count + 1 },
       { level_s := 0, is_stalled := true, stall_event := true,
         resume_event := false, overflow := false })
    else
      ({ level_s := new_level, is_stalled := false,
         total_stall_time_s := s.total_stall_time_s, stall_count := s.stall_count },
       { level_s := new_level, is_stalled := false, stall_event := false,
         resume_event := false, overflow := false })

/-- `StreamBuffer.reset` with the argument omitted: the level returns to the
rebuffer threshold and all stall bookkeeping is cleared. -/
def resetState (c : BufferConfig) (_s : BufferState) : BufferState :=
  { level_s := c.rebuffer_threshold_s
    is_stalled := false
    total_stall_time_s := 0
    stall_count := 0 }

/-- Folding `step` over a list of inflow rates. -/
def run (c : BufferConfig) (s : BufferState) (inflows : List ℚ) : BufferState :=
  inflows.foldl (fun st r => (step c st r).1) s

end StreamBuffer

/-! ## Randomness oracle

A seeded `np.random.default_rng` is modelled as the infinite stream of
values its successive sampling calls return, plus a cursor.  Each sampling
primitive reads the next entry of the stream; `normal(0.0, sigma)` is read as
`sigma` times a standard-normal entry, so a zero sigma yields exactly zero,
as in numpy. -/

structure Rng where
  draws : ℕ → ℚ
  pos : ℕ

/-- Take the next sampled value from the oracle. -/
def Rng.next (r : Rng) : ℚ × Rng :=
  (r.draws r.pos, { draws := r.draws, pos := r.pos + 1 })

/-- Rational-valued abstraction of `np.sin` and `np.pi`.  The claims settled
in this file do not depend on their values. -/
structure RealOps where
  sinq : ℚ → ℚ
  piq : ℚ

/-! ## src/network.py — NetworkCondition -/

/-- Constructor parameters of `NetworkCondition.__init__`. -/
structure NetworkConfig where
  base_bandwidth_mbps : ℚ
  oscillation_amplitude : ℚ
  oscillation_freq_hz : ℚ
  noise_sigma : ℚ
  congestion_probability : ℚ
  congestion_severity : ℚ
  congestion_recovery_rate : ℚ
  base_latency_ms : ℚ
  base_packet_loss : ℚ
deriving DecidableEq

/-- The mutable attributes of a `NetworkCondition` object (`self.dt` is fixed
to 1.0 at construction and never changed, so it is kept as the constant
`NetworkCondition.netDt` below). -/
structure NetworkState where
  phase : ℚ
  congestion_level : ℚ
  stepCount : ℕ
  rng : Rng

/-- The dict returned by `NetworkCondition.step`. -/
structure NetworkOutput where
  bandwidth_mbps : ℚ
  latency_ms : ℚ
  packet_loss : ℚ
  congestion_level : ℚ
deriving DecidableEq

namespace NetworkCondition

/-- `self.dt = 1.0`, set in `__init__` and never modified. -/
def netDt : ℚ := 1

/-- `NetworkCondition.__init__`: draws the phase (`uniform(0, 2π)`) from the
seeded generator and starts with zero congestion at step 0. -/
def make (draws : ℕ → ℚ) : NetworkState :=
  let r0 : Rng := { draws := draws, pos := 0 }
  let p := r0.next
  { phase := p.1, congestion_level := 0, stepCount := 0, rng := p.2 }

/-- `NetworkCondition.step`: advance the network by one time step and return
the state dict together with the updated object state. -/
def step (c : NetworkConfig) (ops : RealOps) (s : NetworkState) :
    NetworkOutput × NetworkState :=
  let t : ℚ := (s.stepCount : ℚ) * netDt
  -- Sinusoidal component (deterministic oscillation)
  let sinusoidal := 1 + c.oscillation_amplitude *
    ops.sinq (2 * ops.piq * c.oscillation_freq_hz * t + s.phase)
  -- Multiplicative log-normal noise: next oracle value
  let pNoise := s.rng.next
  let noise := pNoise.1
  -- Congestion dynamics: `self._rng.random() < congestion_probability`
  let pU := pNoise.2.next
  let congestion :=
    if pU.1 < c.congestion_probability then
      min 1 (s.congestion_level + c.congestion_severity)
    else
      max 0 (s.congestion_level - c.congestion_recovery_rate)
  let availability := 1 - congestion
  let bandwidth := max (1/10) (c.base_bandwidth_mbps * sinusoidal * noise * availability)
  -- Latency increases nonlinearly with congestion
  let latency := c.base_latency_ms * (1 + 3 * congestion ^ 2)
  -- Packet loss grows nonlinearly with congestion
  let packet_loss := c.base_packet_loss + (1/10) * congestion ^ 3
  ({ bandwidth_mbps := bandwidth, latency_ms := latency,
     packet_loss := packet_loss, congestion_level := congestion },
   { phase := s.phase, congestion_level := congestion,
     stepCount := s.stepCount + 1, rng := pU.2 })

/-- `NetworkCondition.reset` as called by `TwitchStreamSimulation.run` (no
seed argument): the existing generator is kept and the phase is re-drawn
from it; congestion and the step counter return to zero. -/
def resetState (s : NetworkState) : NetworkState :=
  let p := s.rng.next
  { phase := p.1, congestion_level := 0, stepCount := 0, rng := p.2 }

/-- The object state after `k` consecutive `step` calls. -/
def iter (c : NetworkConfig) (ops : RealOps) : ℕ → NetworkState → NetworkState
  | 0, s => s
  | k + 1, s => iter c ops k (step c ops s).2

end NetworkCondition

/-! ## src/encoder.py — quality ladder and StreamEncoder -/

/-- One entry of `QUALITY_LEVELS` / the `QualityLevel` class. -/
structure QualityLevel where
  name : String
  video_kbps : ℕ
  audio_kbps : ℕ
  min_bandwidth_mbps : ℚ
deriving DecidableEq

def QualityLevel.total_kbps (l : QualityLevel) : ℕ :=
  l.video_kbps + l.audio_kbps

def QualityLevel.total_mbps (l : QualityLevel) : ℚ :=
  (l.total_kbps : ℚ) / 1000

/-- The static `QUALITY_LADDER` list of src/encoder.py. -/
def QUALITY_LADDER : List QualityLevel :=
  [ { name := "160p", video_kbps := 300, audio_kbps := 96, min_bandwidth_mbps := 1/2 },
    { name := "360p", video_kbps := 800, audio_kbps := 128, min_bandwidth_mbps := 6/5 },
    { name := "480p", video_kbps := 1500, audio_kbps := 160, min_bandwidth_mbps := 5/2 },
    { name := "720p", video_kbps := 3000, audio_kbps := 192, min_bandwidth_mbps := 4 },
    { name := "720p60", video_kbps := 4500, audio_kbps := 192, min_bandwidth_mbps := 6 },
    { name := "1080p", video_kbps := 6000, audio_kbps := 320, min_bandwidth_mbps := 8 },
    { name := "1080p60", video_kbps := 8000, audio_kbps := 320, min_bandwidth_mbps := 10 } ]

/-- Placeholder level for out-of-range indexing (never reached: every index
stored in the encoder state is a valid ladder index). -/
def dummyLevel : QualityLevel :=
  { name := "", video_kbps := 0, audio_kbps := 0, min_bandwidth_mbps := 0 }

/-- Constructor parameters of `StreamEncoder.__init__`. -/
structure EncoderConfig where
  safety_factor : ℚ
  upgrade_hysteresis : ℕ
  av_sync_decay : ℚ
  av_sync_noise : ℚ
deriving DecidableEq

/-- The mutable attributes of a `StreamEncoder` object. -/
structure EncoderState where
  quality_index : ℕ
  consecutive_upgrade_steps : ℕ
  av_sync_drift_ms : ℚ
  rng : Rng

/-- The dict returned by `StreamEncoder.step` (the `quality` object itself is
recoverable from the index, so `quality_name` stands for both keys). -/
structure EncoderOutput where
  quality_name : String
  inflow_rate_s_per_s : ℚ
  av_sync_drift_ms : ℚ
  quality_switch : Bool
  dropped_frames : Bool
deriving DecidableEq

namespace StreamEncoder

/-- `StreamEncoder._select_quality_index`: the index of the highest quality
level that fits, scanning the ladder in order and keeping the last index whose
threshold is met (0 when none is). -/
def selectQualityIndex (effective_bandwidth_mbps : ℚ) : ℕ :=
  (QUALITY_LADDER.enum.foldl
    (fun best p =>
      if effective_bandwidth_mbps ≥ p.2.min_bandwidth_mbps then p.1 else best)
    0)

/-- `StreamEncoder.__init__`. -/
def make (draws : ℕ → ℚ) : EncoderState :=
  { quality_index := 0, consecutive_upgrade_steps := 0, av_sync_drift_ms := 0,
    rng := { draws := draws, pos := 0 } }

/-- `StreamEncoder.step`: select quality under hysteresis, compute the inflow
rate and update the A/V sync drift.  Of the buffer-state dict argument only
`is_stalled` is read (`buffer_state.get("is_stalled", False)`). -/
def step (c : EncoderConfig) (s : EncoderState)
    (available_bandwidth_mbps : ℚ) (is_stalled : Bool) :
    EncoderOutput × EncoderState :=
  let effective_bandwidth := available_bandwidth_mbps * c.safety_factor
  -- quality selection
  let target_index := selectQualityIndex effective_bandwidth
  let previous_index := s.quality_index
  let sel : ℕ × ℕ × Bool :=
    if target_index < s.quality_index then
      -- immediate downgrade
      (target_index, 0, true)
    else if target_index > s.quality_index then
      if s.consecutive_upgrade_steps + 1 ≥ c.upgrade_hysteresis then
        (target_index, 0, true)
      else
        (s.quality_index, s.consecutive_upgrade_steps + 1, false)
    else
      (s.quality_index, 0, false)
  let qidx := sel.1
  let counter := sel.2.1
  let quality_switch := sel.2.2
  let current_quality := QUALITY_LADDER.getD qidx dummyLevel
  -- inflow rate: capped at 3x drain while stalled, 2x otherwise
  let inflow_rate :=
    if is_stalled then
      min (effective_bandwidth / current_quality.total_mbps) 3
    else
      min (effective_bandwidth / current_quality.total_mbps) 2
  -- dropped frames when inflow < 1.0 or currently stalled
  let dropped_frames := decide (inflow_rate < 1) || is_stalled
  -- A/V sync drift: `normal(0.0, av_sync_noise)` is `av_sync_noise` times a
  -- standard-normal oracle value
  let pG := s.rng.next
  let base_noise := c.av_sync_noise * pG.1
  let stall_penalty : ℚ := if is_stalled then 5 else 0
  let switch_penalty : ℚ := (((qidx : ℤ) - (previous_index : ℤ)).natAbs : ℚ) * 2
  let drift := s.av_sync_drift_ms * c.av_sync_decay + base_noise
    + stall_penalty + switch_penalty
  ({ quality_name := current_quality.name, inflow_rate_s_per_s := inflow_rate,
     av_sync_drift_ms := drift, quality_switch := quality_switch,
     dropped_frames := dropped_frames },
   { quality_index := qidx, consecutive_upgrade_steps := counter,
     av_sync_drift_ms := drift, rng := pG.2 })

/-- `StreamEncoder.reset`: index, counter and drift return to zero; the
generator (`self._rng`) is kept untouched. -/
def resetState (s : EncoderState) : EncoderState :=
  { quality_index := 0, consecutive_upgrade_steps := 0, av_sync_drift_ms := 0,
    rng := s.rng }

/-- Folding `step` over a list of (bandwidth, stalled-flag) inputs. -/
def run (c : EncoderConfig) (s : EncoderState) (inputs : List (ℚ × Bool)) :
    EncoderState :=
  inputs.foldl (fun st p => (step c st p.1 p.2).2) s

end StreamEncoder

/-! ## src/quality.py — QualityMetrics -/

/-- Constructor parameters of `QualityMetrics.__init__`. -/
structure MetricsConfig where
  av_sync_threshold_ms : ℚ
  jerk_weight : ℚ
  av_sync_weight : ℚ
  quality_stability_weight : ℚ
deriving DecidableEq

/-- One entry of `self._steps`, as appended by `QualityMetrics.record`. -/
structure Snapshot where
  is_stalled : Bool
  stall_event : Bool
  buffer_level_s : ℚ
  av_sync_drift_ms : ℚ
  quality_switch : Bool
  quality_name : String
  dropped_frames : Bool
deriving DecidableEq

/-- The dict returned by `QualityMetrics.compute` on a non-empty record. -/
structure MetricsResult where
  total_steps : ℕ
  stall_count : ℕ
  total_stall_time_s : ℕ
  stall_ratio : ℚ
  mean_av_sync_drift_ms : ℚ
  max_av_sync_drift_ms : ℚ
  av_out_of_sync_ratio : ℚ
  quality_switch_count : ℕ
  quality_switch_rate : ℚ
  mean_buffer_level_s : ℚ
  dropped_frame_ratio : ℚ
  jerkiness_score : ℚ
  av_sync_score : ℚ
  quality_stability_score : ℚ
  overall_qoe : ℚ
deriving DecidableEq

namespace QualityMetrics

/-- `QualityMetrics.__init__`: raises ValueError iff the three weights do not
sum to 1 within the 1e-9 tolerance. -/
def make (c : MetricsConfig) : Except String MetricsConfig :=
  if |c.jerk_weight + c.av_sync_weight + c.quality_stability_weight - 1| > 1/1000000000 then
    .error "QoE weights must sum to 1.0"
  else
    .ok c

/-- `QualityMetrics.record`: append one snapshot built from the buffer and
encoder step outputs. -/
def record (steps : List Snapshot) (b : BufferOutput) (e : EncoderOutput) :
    List Snapshot :=
  steps ++ [{ is_stalled := b.is_stalled, stall_event := b.stall_event,
              buffer_level_s := b.level_s, av_sync_drift_ms := e.av_sync_drift_ms,
              quality_switch := e.quality_switch, quality_name := e.quality_name,
              dropped_frames := e.dropped_frames }]

/-- `QualityMetrics.compute`: `none` models the empty dict returned when no
steps were recorded. -/
def compute (c : MetricsConfig) (steps : List Snapshot) : Option MetricsResult :=
  let n := steps.length
  if n = 0 then none else
  let stall_events := (steps.filter (fun s => s.stall_event)).length
  let stalled_steps := (steps.filter (fun s => s.is_stalled)).length
  let stall_ratio : ℚ := (stalled_steps : ℚ) / (n : ℚ)
  let abs_drifts := steps.map (fun s => |s.av_sync_drift_ms|)
  let mean_drift := abs_drifts.sum / (n : ℚ)
  -- `max(abs_drifts)` over the non-empty list
  let max_drift := abs_drifts.foldl max 0
  let out_of_sync_steps := (abs_drifts.filter (fun d => c.av_sync_threshold_ms < d)).length
  let av_out_of_sync_ratio : ℚ := (out_of_sync_steps : ℚ) / (n : ℚ)
  let quality_switches := (steps.filter (fun s => s.quality_switch)).length
  let quality_switch_rate : ℚ := (quality_switches : ℚ) / (n : ℚ) * 60
  let mean_buffer := (steps.map (fun s => s.buffer_level_s)).sum / (n : ℚ)
  let dropped_steps := (steps.filter (fun s => s.dropped_frames)).length
  let dropped_frame_ratio : ℚ := (dropped_steps : ℚ) / (n : ℚ)
  -- component scores (0-10, higher = better)
  let jerkiness_score := 10 * max 0 (1 - 3 * stall_ratio - dropped_frame_ratio)
  let av_sync_score := 10 * max 0
    (1 - av_out_of_sync_ratio - min (mean_drift / (10 * c.av_sync_threshold_ms)) 1)
  let quality_stability_score := 10 * max 0 (1 - quality_switch_rate / 6)
  let overall_qoe := c.jerk_weight * jerkiness_score
    + c.av_sync_weight * av_sync_score
    + c.quality_stability_weight * quality_stability_score
  some
    { total_steps := n, stall_count := stall_events,
      total_stall_time_s := stalled_steps, stall_ratio := stall_ratio,
      mean_av_sync_drift_ms := mean_drift, max_av_sync_drift_ms := max_drift,
      av_out_of_sync_ratio := av_out_of_sync_ratio,
      quality_switch_count := quality_switches,
      quality_switch_rate := quality_switch_rate,
      mean_buffer_level_s := mean_buffer,
      dropped_frame_ratio := dropped_frame_ratio,
      jerkiness_score := jerkiness_score, av_sync_score := av_sync_score,
      quality_stability_score := quality_stability_score,
      overall_qoe := overall_qoe }

end QualityMetrics

/-! ## src/simulation.py — TwitchStreamSimulation -/

/-- Construction-time configuration of `TwitchStreamSimulation` after kwargs
resolution (the buffer receives `dt` from the simulation, so
`buffer.dt = dt` for every object the constructor builds). -/
structure SimConfig where
  duration_s : ℕ
  dt : ℚ
  network : NetworkConfig
  buffer : BufferConfig
  encoder : EncoderConfig
  metrics : MetricsConfig

/-- The mutable component states owned by a `TwitchStreamSimulation`. -/
structure SimState where
  net : NetworkState
  buf : BufferState
  enc : EncoderState
  recorded : List Snapshot

/-- One entry of the `timeline` list built by `run`. -/
structure TimelineEntry where
  t : ℚ
  bandwidth_mbps : ℚ
  latency_ms : ℚ
  packet_loss : ℚ
  congestion_level : ℚ
  buffer_level_s : ℚ
  is_stalled : Bool
  stall_event : Bool
  quality_name : String
  av_sync_drift_ms : ℚ
  inflow_rate_s_per_s : ℚ
  dropped_frames : Bool
deriving DecidableEq

/-- The dict returned by `run`: the computed metrics plus the timeline. -/
structure SimReport where
  metrics : Option MetricsResult
  timeline : List TimelineEntry
deriving DecidableEq

namespace TwitchStreamSimulation

/-- `TwitchStreamSimulation.__init__` for a fixed integer seed: the master
seed is propagated to the network and encoder generators, which are modelled
by the two oracle streams a seed determines. -/
def make (cfg : SimConfig) (netDraws encDraws : ℕ → ℚ) : SimState :=
  { net := NetworkCondition.make netDraws
    buf := StreamBuffer.initState cfg.buffer
    enc := StreamEncoder.make encDraws
    recorded := [] }

/-- The body of the `for` loop in `run`: one simulation step. -/
def loopStep (cfg : SimConfig) (ops : RealOps)
    (p : SimState × List TimelineEntry) (stepIdx : ℕ) :
    SimState × List TimelineEntry :=
  let st := p.1
  -- 1. observe network
  let netR := NetworkCondition.step cfg.network ops st.net
  let net := netR.1
  -- 2. encoder runs on the previous buffer state (one-step lag)
  let encR := StreamEncoder.step cfg.encoder st.enc net.bandwidth_mbps st.buf.is_stalled
  let enc := encR.1
  -- 3. advance the buffer with the encoder's inflow rate
  let bufR := StreamBuffer.step cfg.buffer st.buf enc.inflow_rate_s_per_s
  let buf := bufR.2
  -- 4. record QoE metrics
  let recorded := QualityMetrics.record st.recorded buf enc
  -- 5. store timeline snapshot
  let entry : TimelineEntry :=
    { t := (stepIdx : ℚ) * cfg.dt, bandwidth_mbps := net.bandwidth_mbps,
      latency_ms := net.latency_ms, packet_loss := net.packet_loss,
      congestion_level := net.congestion_level, buffer_level_s := buf.level_s,
      is_stalled := buf.is_stalled, stall_event := buf.stall_event,
      quality_name := enc.quality_name, av_sync_drift_ms := enc.av_sync_drift_ms,
      inflow_rate_s_per_s := enc.inflow_rate_s_per_s,
      dropped_frames := enc.dropped_frames }
  ({ net := netR.2, buf := bufR.1, enc := encR.2, recorded := recorded },
   p.2 ++ [entry])

/-- `TwitchStreamSimulation.run`: reset every component, run
`int(duration_s / dt)` steps, and return the report together with the object
state left behind (the components are mutated in place in the source). -/
def run (cfg : SimConfig) (ops : RealOps) (st : SimState) :
    SimReport × SimState :=
  let st0 : SimState :=
    { net := NetworkCondition.resetState st.net
      buf := StreamBuffer.resetState cfg.buffer st.buf
      enc := StreamEncoder.resetState st.enc
      recorded := [] }
  let n : ℕ := ((cfg.duration_s : ℚ) / cfg.dt).floor.toNat
  let r := (List.range n).foldl (loopStep cfg ops) (st0, [])
  ({ metrics := QualityMetrics.compute cfg.metrics r.1.recorded,
     timeline := r.2 },
   r.1)

end TwitchStreamSimulation

/-! ## Concrete instances used in closed evaluations -/

/-- A small buffer configuration (threshold below maximum, so construction
succeeds). -/
def bufCfg10 : BufferConfig :=
  { max_level_s := 10, initial_level_s := 1, rebuffer_threshold_s := 3,
    target_level_s := 10, drain_rate_s_per_s := 1, dt := 1 }

/-- The state after one zero-inflow step from construction with `bufCfg10`:
the buffer empties and stalls. -/
def bufStalled10 : BufferState :=
  (StreamBuffer.step bufCfg10 (StreamBuffer.initState bufCfg10) 0).1

/-- A concrete abstraction of np.sin / np.pi for closed evaluations. -/
def opsZero : RealOps := { sinq := fun _ => 0, piq := 0 }

/-- An oracle stream that always samples zero. -/
def zeroDraws : ℕ → ℚ := fun _ => 0

/-- The default constructor parameters of `StreamBuffer`. -/
def defaultBufferConfig : BufferConfig :=
  { max_level_s := 30, initial_level_s := 5, rebuffer_threshold_s := 3,
    target_level_s := 10, drain_rate_s_per_s := 1, dt := 1 }

/-- The default constructor parameters of `NetworkCondition`. -/
def defaultNetworkConfig : NetworkConfig :=
  { base_bandwidth_mbps := 10, oscillation_amplitude := 3/10,
    oscillation_freq_hz := 1/20, noise_sigma := 1/10,
    congestion_probability := 1/50, congestion_severity := 3/5,
    congestion_recovery_rate := 3/20, base_latency_ms := 20,
    base_packet_loss := 1/1000 }

/-- A `NetworkCondition` configuration whose parameters all lie in their
documented ranges (every probability is in [0, 1]) but whose packet-loss
floor is large: congestion is certain and total, so one step drives the
congestion level to 1. -/
def netCfgLossy : NetworkConfig :=
  { base_bandwidth_mbps := 10, oscillation_amplitude := 3/10,
    oscillation_freq_hz := 1/20, noise_sigma := 1/10,
    congestion_probability := 1, congestion_severity := 1,
    congestion_recovery_rate := 3/20, base_latency_ms := 20,
    base_packet_loss := 19/20 }

/-- The default constructor parameters of `StreamEncoder`. -/
def defaultEncoderConfig : EncoderConfig :=
  { safety_factor := 17/20, upgrade_hysteresis := 3,
    av_sync_decay := 19/20, av_sync_noise := 1/2 }

/-- The encoder state after two steps of abundant bandwidth (20 Mbps) from
construction with the default configuration: the upgrade counter has reached
2 and the index is still 0. -/
def encPump2 : EncoderState :=
  StreamEncoder.run defaultEncoderConfig (StreamEncoder.make zeroDraws)
    [(20, false), (20, false)]

/-- The default constructor parameters of `QualityMetrics`. -/
def defaultMetricsConfig : MetricsConfig :=
  { av_sync_threshold_ms := 40, jerk_weight := 2/5, av_sync_weight := 7/20,
    quality_stability_weight := 1/4 }

/-- A concrete recorded snapshot of a clean step. -/
def snapA : Snapshot :=
  { is_stalled := false, stall_event := false, buffer_level_s := 5,
    av_sync_drift_ms := 0, quality_switch := false, quality_name := "160p",
    dropped_frames := false }

/-- The default encoder configuration with the drift noise set to zero. -/
def encCfgNoiseless : EncoderConfig :=
  { safety_factor := 17/20, upgrade_hysteresis := 3,
    av_sync_decay := 19/20, av_sync_noise := 0 }

/-- A zero-noise encoder configuration with hysteresis 1, full safety factor
and decay 1/2, under which alternating bandwidth pumps the drift quickly. -/
def encCfgFast : EncoderConfig :=
  { safety_factor := 1, upgrade_hysteresis := 1,
    av_sync_decay := 1/2, av_sync_noise := 0 }

/-- A reachable high-drift state: three stalled steps of alternating
bandwidth, each committing a six-rung quality switch, drive the drift to
119/4. -/
def encPumped : EncoderState :=
  StreamEncoder.run encCfgFast (StreamEncoder.make zeroDraws)
    [(100, true), (0, true), (100, true)]

/-- A non-stalled, switch-free step from the high-drift state. -/
def encStepA : EncoderOutput × EncoderState :=
  StreamEncoder.step encCfgFast encPumped 100 false

/-- The immediately following step whose buffer-state input is stalled, with
the same bandwidth and again no switch. -/
def encStepB : EncoderOutput × EncoderState :=
  StreamEncoder.step encCfgFast encStepA.2 100 true

/-- A concrete abstraction of np.sin / np.pi under which the repeated-run
divergence is visible (any abstraction with sinq 1 ≠ sinq 4 would do). -/
def opsId : RealOps := { sinq := fun x => x, piq := 22/7 }

/-- An oracle stream with pairwise distinct values. -/
def natDraws : ℕ → ℚ := fun n => (n : ℚ)

/-- A one-step simulation configuration built from the source defaults. -/
def simCfgSmall : SimConfig :=
  { duration_s := 1, dt := 1, network := defaultNetworkConfig,
    buffer := defaultBufferConfig, encoder := defaultEncoderConfig,
    metrics := defaultMetricsConfig }

/-- The first `run()` call on a freshly constructed simulation. -/
def simRun1 : SimReport × SimState :=
  TwitchStreamSimulation.run simCfgSmall opsId
    (TwitchStreamSimulation.make simCfgSmall natDraws natDraws)

/-- A second `run()` call on the same object (its state as `run` left it). -/
def simRun2 : SimReport × SimState :=
  TwitchStreamSimulation.run simCfgSmall opsId simRun1.2

/-! ## Theorems about the buffer step -/

/-- C3: one call to `StreamBuffer.step` behaves exactly as the two-state
machine specifies.  Not stalled: the level moves by `(inflow − drain)·dt`; a
projected level at or above the maximum is clamped to the maximum with the
overflow flag set; otherwise a projected level at or below zero is clamped to
zero, sets `is_stalled` and the stall-event flag, increments the stall counter
and adds this step's `dt` to the cumulative stall time.  Stalled: drain is
suspended, the level grows by `inflow·dt` capped at the maximum, cumulative
stall time accrues by `dt`, and reaching or exceeding the rebuffer threshold
clears `is_stalled` and sets the resume-event flag. -/
theorem buffer_step_state_machine (c : BufferConfig) (s : BufferState) (inflow : ℚ) :
    (s.is_stalled = false →
      ((c.max_level_s ≤ s.level_s + (inflow - c.drain_rate_s_per_s) * c.dt →
          StreamBuffer.step c s inflow =
            ({ level_s := c.max_level_s, is_stalled := false,
               total_stall_time_s := s.total_stall_time_s, stall_count := s.stall_count },
             { level_s := c.max_level_s, is_stalled := false, stall_event := false,
               resume_event := false, overflow := true })) ∧
       (s.level_s + (inflow - c.drain_rate_s_per_s) * c.dt < c.max_level_s →
        s.level_s + (inflow - c.drain_rate_s_per_s) * c.dt ≤ 0 →
          StreamBuffer.step c s inflow =
            ({ level_s := 0, is_stalled := true,
               total_stall_time_s := s.total_stall_time_s + c.dt,
               stall_count := s.stall_count + 1 },
             { level_s := 0, is_stalled := true, stall_event := true,
               resume_event := false, overflow := false })) ∧
       (0 < s.level_s + (inflow - c.drain_rate_s_per_s) * c.dt →
        s.level_s + (inflow - c.drain_rate_s_per_s) * c.dt < c.max_level_s →
          StreamBuffer.step c s inflow =
            ({ level_s := s.level_s + (inflow - c.drain_rate_s_per_s) * c.dt,
               is_stalled := false,
               total_stall_time_s := s.total_stall_time_s, stall_count := s.stall_count },
             { level_s := s.level_s + (inflow - c.drain_rate_s_per_s) * c.dt,
               is_stalled := false, stall_event := false,
               resume_event := false, overflow := false })))) ∧
    (s.is_stalled = true →
      ((c.rebuffer_threshold_s ≤ min c.max_level_s (s.level_s + inflow * c.dt) →
          StreamBuffer.step c s inflow =
            ({ level_s := min c.max_level_s (s.level_s + inflow * c.dt), is_stalled := false,
               total_stall_time_s := s.total_stall_time_s + c.dt, stall_count := s.stall_count },
             { level_s := min c.max_level_s (s.level_s + inflow * c.dt), is_stalled := false,
               stall_event := false, resume_event := true, overflow := false })) ∧
       (min c.max_level_s (s.level_s + inflow * c.dt) < c.rebuffer_threshold_s →
          StreamBuffer.step c s inflow =
            ({ level_s := min c.max_level_s (s.level_s + inflow * c.dt), is_stalled := true,
               total_stall_time_s := s.total_stall_time_s + c.dt, stall_count := s.stall_count },
             { level_s := min c.max_level_s (s.level_s + inflow * c.dt), is_stalled := true,
               stall_event := false, resume_event := false, overflow := false })))) := by
  constructor
  · intro hns
    refine ⟨?_, ?_, ?_⟩
    · intro h
      simp only [StreamBuffer.step, hns, Bool.false_eq_true, if_false, ge_iff_le, if_pos h]
    · intro h1 h2
      simp only [StreamBuffer.step, hns, Bool.false_eq_true, if_false, ge_iff_le,
        if_neg (not_le.mpr h1), if_pos h2]
    · intro h1 h2
      simp only [StreamBuffer.step, hns, Bool.false_eq_true, if_false, ge_iff_le,
        if_neg (not_le.mpr h2), if_neg (not_le.mpr h1)]
  · intro hs
    refine ⟨?_, ?_⟩
    · intro h
      simp only [StreamBuffer.step, hs, if_true, ge_iff_le, if_pos h]
    · intro h
      simp only [StreamBuffer.step, hs, if_true, ge_iff_le, if_neg (not_le.mpr h)]

/-- C6 (amended): the overflow flag returned by `StreamBuffer.step` is true
iff the step started not stalled and the projected level
`level + (inflow − drain)·dt` reached or exceeded the maximum.  A step taken
while stalled never sets overflow, even when the inflow fills the buffer to
its maximum. -/
theorem overflow_iff_nonstalled_ceiling (c : BufferConfig) (s : BufferState) (inflow : ℚ) :
    (StreamBuffer.step c s inflow).2.overflow = true ↔
      s.is_stalled = false ∧
        c.max_level_s ≤ s.level_s + (inflow - c.drain_rate_s_per_s) * c.dt := by
  cases hst : s.is_stalled <;>
    simp only [StreamBuffer.step, hst, if_true, if_false, Bool.false_eq_true,
      Bool.true_eq_false, ge_iff_le] <;>
    split_ifs <;>
    simp_all

/-- C6 counterexample: a buffer that stalls and is then fed a large inflow
fills to its maximum level during a stalled step, yet the step reports
`overflow = false`, refuting "overflow iff the buffer hit its ceiling". -/
theorem stalled_fill_no_overflow_cex :
    bufStalled10.is_stalled = true ∧
    (StreamBuffer.step bufCfg10 bufStalled10 20).2.level_s = bufCfg10.max_level_s ∧
    (StreamBuffer.step bufCfg10 bufStalled10 20).2.overflow = false := by
  norm_num [bufStalled10, bufCfg10, StreamBuffer.step, StreamBuffer.initState, min_def]

/-- C10: a single `StreamBuffer.step` never reports a stall event and a
resume event together, never a stall event and overflow together; a resume
event implies the pre-step state was stalled, and a stall event implies it
was not. -/
theorem buffer_step_event_exclusions (c : BufferConfig) (s : BufferState) (inflow : ℚ) :
    (((StreamBuffer.step c s inflow).2.stall_event &&
        (StreamBuffer.step c s inflow).2.resume_event) = false) ∧
    (((StreamBuffer.step c s inflow).2.stall_event &&
        (StreamBuffer.step c s inflow).2.overflow) = false) ∧
    ((StreamBuffer.step c s inflow).2.resume_event = true → s.is_stalled = true) ∧
    ((StreamBuffer.step c s inflow).2.stall_event = true → s.is_stalled = false) := by
  cases hst : s.is_stalled <;>
    simp only [StreamBuffer.step, hst, if_true, if_false, Bool.false_eq_true,
      Bool.true_eq_false, ge_iff_le] <;>
    split_ifs <;>
    simp_all

/-! ## C1: level / congestion / packet-loss bounds -/

/-- One buffer step keeps the level inside [0, max] when the inflow and the
step size are nonnegative. -/
theorem StreamBuffer.step_level_bounds (c : BufferConfig) (s : BufferState)
    (inflow : ℚ) (hin : 0 ≤ inflow) (hdt : 0 ≤ c.dt)
    (h0 : 0 ≤ s.level_s) (h1 : s.level_s ≤ c.max_level_s) :
    0 ≤ (StreamBuffer.step c s inflow).1.level_s ∧
      (StreamBuffer.step c s inflow).1.level_s ≤ c.max_level_s := by
  have hmax : (0 : ℚ) ≤ c.max_level_s := le_trans h0 h1
  have hadd : (0 : ℚ) ≤ s.level_s + inflow * c.dt := by
    have := mul_nonneg hin hdt
    linarith
  cases hst : s.is_stalled
  · simp only [StreamBuffer.step, hst, Bool.false_eq_true, if_false, ge_iff_le]
    split_ifs with h2 h3 <;> dsimp only <;> constructor <;> linarith
  · simp only [StreamBuffer.step, hst, if_true, ge_iff_le]
    split_ifs with h2 <;> dsimp only <;>
      exact ⟨le_min hmax hadd, min_le_left _ _⟩

/-- Folding buffer steps over nonnegative inflows keeps the level inside
[0, max]. -/
theorem StreamBuffer.run_level_bounds (c : BufferConfig) (inflows : List ℚ)
    (s : BufferState) (hin : ∀ r ∈ inflows, 0 ≤ r) (hdt : 0 ≤ c.dt)
    (h0 : 0 ≤ s.level_s) (h1 : s.level_s ≤ c.max_level_s) :
    0 ≤ (StreamBuffer.run c s inflows).level_s ∧
      (StreamBuffer.run c s inflows).level_s ≤ c.max_level_s := by
  induction inflows generalizing s with
  | nil => exact ⟨h0, h1⟩
  | cons r rs ih =>
    have hr : 0 ≤ r := hin r (List.mem_cons_self r rs)
    have hstep := StreamBuffer.step_level_bounds c s r hr hdt h0 h1
    simp only [StreamBuffer.run, List.foldl_cons] at *
    exact ih _ (fun x hx => hin x (List.mem_cons_of_mem r hx)) hstep.1 hstep.2

/-- One network step keeps the congestion level inside [0, 1] when the
severity and recovery rate are nonnegative; the output congestion equals the
post-step state congestion. -/
theorem NetworkCondition.step_congestion_bounds (c : NetworkConfig) (ops : RealOps)
    (s : NetworkState) (hsev : 0 ≤ c.congestion_severity)
    (hrec : 0 ≤ c.congestion_recovery_rate)
    (h0 : 0 ≤ s.congestion_level) (h1 : s.congestion_level ≤ 1) :
    (0 ≤ (NetworkCondition.step c ops s).2.congestion_level ∧
      (NetworkCondition.step c ops s).2.congestion_level ≤ 1) ∧
    (NetworkCondition.step c ops s).1.congestion_level =
      (NetworkCondition.step c ops s).2.congestion_level := by
  refine ⟨?_, rfl⟩
  simp only [NetworkCondition.step]
  split_ifs with h
  · exact ⟨le_min (by norm_num) (by linarith), min_le_left _ _⟩
  · exact ⟨le_max_left _ _, max_le (by norm_num) (by linarith)⟩

/-- Iterating network steps from construction keeps congestion in [0, 1]. -/
theorem NetworkCondition.iter_congestion_bounds (c : NetworkConfig) (ops : RealOps)
    (hsev : 0 ≤ c.congestion_severity) (hrec : 0 ≤ c.congestion_recovery_rate)
    (s : NetworkState) (h0 : 0 ≤ s.congestion_level) (h1 : s.congestion_level ≤ 1) :
    ∀ k : ℕ, 0 ≤ (NetworkCondition.iter c ops k s).congestion_level ∧
      (NetworkCondition.iter c ops k s).congestion_level ≤ 1 := by
  intro k
  induction k generalizing s with
  | zero => exact ⟨h0, h1⟩
  | succ n ih =>
    have h := (NetworkCondition.step_congestion_bounds c ops s hsev hrec h0 h1).1
    exact ih _ h.1 h.2

/-- The packet loss returned by one network step lies in [0, 1] when the
packet-loss floor is in [0, 9/10] and the pre-step congestion is in [0, 1]. -/
theorem NetworkCondition.step_packet_loss_bounds (c : NetworkConfig) (ops : RealOps)
    (s : NetworkState) (hsev : 0 ≤ c.congestion_severity)
    (hrec : 0 ≤ c.congestion_recovery_rate)
    (hpl0 : 0 ≤ c.base_packet_loss) (hpl1 : c.base_packet_loss ≤ 9/10)
    (h0 : 0 ≤ s.congestion_level) (h1 : s.congestion_level ≤ 1) :
    0 ≤ (NetworkCondition.step c ops s).1.packet_loss ∧
      (NetworkCondition.step c ops s).1.packet_loss ≤ 1 := by
  have hc := (NetworkCondition.step_congestion_bounds c ops s hsev hrec h0 h1).1
  have hcong :
      (NetworkCondition.step c ops s).1.packet_loss =
        c.base_packet_loss + (1/10) *
          (NetworkCondition.step c ops s).2.congestion_level ^ 3 := by
    simp only [NetworkCondition.step]
  rw [hcong]
  have h3a : (0 : ℚ) ≤ (NetworkCondition.step c ops s).2.congestion_level ^ 3 :=
    pow_nonneg hc.1 3
  have h3b : (NetworkCondition.step c ops s).2.congestion_level ^ 3 ≤ 1 :=
    pow_le_one₀ hc.1 hc.2
  constructor <;> linarith

/-- C1 (amended): for a configuration that is valid in the spec's sense and
additionally keeps its parameters inside their documented ranges — step size
nonnegative, congestion severity and recovery rate nonnegative and the
packet-loss floor at most 9/10 — the buffer level stays inside
[0, max_level_s] after every step of any finite sequence of nonnegative
inflows, and the congestion level and packet loss returned by every network
step stay inside [0, 1].  (Without the 9/10 bound on the floor the packet
loss can exceed 1: see the counterexample.) -/
theorem buffer_network_bounds (bc : BufferConfig) (nc : NetworkConfig)
    (ops : RealOps) (draws : ℕ → ℚ)
    (hvalid : bc.rebuffer_threshold_s ≤ bc.max_level_s)
    (hinit0 : 0 ≤ bc.initial_level_s) (hinit1 : bc.initial_level_s ≤ bc.max_level_s)
    (hdt : 0 ≤ bc.dt)
    (hsev : 0 ≤ nc.congestion_severity) (hrec : 0 ≤ nc.congestion_recovery_rate)
    (hpl0 : 0 ≤ nc.base_packet_loss) (hpl1 : nc.base_packet_loss ≤ 9/10) :
    (∀ inflows : List ℚ, (∀ r ∈ inflows, 0 ≤ r) → ∀ k : ℕ,
        0 ≤ (StreamBuffer.run bc (StreamBuffer.initState bc) (inflows.take k)).level_s ∧
        (StreamBuffer.run bc (StreamBuffer.initState bc) (inflows.take k)).level_s
          ≤ bc.max_level_s) ∧
    (∀ k : ℕ,
        (0 ≤ (NetworkCondition.step nc ops
                (NetworkCondition.iter nc ops k (NetworkCondition.make draws))).1.congestion_level ∧
         (NetworkCondition.step nc ops
                (NetworkCondition.iter nc ops k (NetworkCondition.make draws))).1.congestion_level ≤ 1) ∧
        (0 ≤ (NetworkCondition.step nc ops
                (NetworkCondition.iter nc ops k (NetworkCondition.make draws))).1.packet_loss ∧
         (NetworkCondition.step nc ops
                (NetworkCondition.iter nc ops k (NetworkCondition.make draws))).1.packet_loss ≤ 1)) := by
  constructor
  · intro inflows hin k
    refine StreamBuffer.run_level_bounds bc (inflows.take k) _ ?_ hdt ?_ ?_
    · exact fun r hr => hin r (List.mem_of_mem_take hr)
    · simpa [StreamBuffer.initState] using hinit0
    · simpa [StreamBuffer.initState] using hinit1
  · intro k
    have hmk0 : 0 ≤ (NetworkCondition.make draws).congestion_level := by
      simp [NetworkCondition.make, Rng.next]
    have hmk1 : (NetworkCondition.make draws).congestion_level ≤ 1 := by
      simp [NetworkCondition.make, Rng.next]
    have hiter := NetworkCondition.iter_congestion_bounds nc ops hsev hrec
      (NetworkCondition.make draws) hmk0 hmk1 k
    have hstep := NetworkCondition.step_congestion_bounds nc ops
      (NetworkCondition.iter nc ops k (NetworkCondition.make draws)) hsev hrec
      hiter.1 hiter.2
    refine ⟨⟨?_, ?_⟩, ?_⟩
    · rw [hstep.2]; exact hstep.1.1
    · rw [hstep.2]; exact hstep.1.2
    · exact NetworkCondition.step_packet_loss_bounds nc ops _ hsev hrec hpl0 hpl1
        hiter.1 hiter.2

/-- Witness for `buffer_network_bounds` at the default configurations. -/
theorem buffer_network_bounds_witness :
    (∀ inflows : List ℚ, (∀ r ∈ inflows, 0 ≤ r) → ∀ k : ℕ,
        0 ≤ (StreamBuffer.run defaultBufferConfig
              (StreamBuffer.initState defaultBufferConfig) (inflows.take k)).level_s ∧
        (StreamBuffer.run defaultBufferConfig
              (StreamBuffer.initState defaultBufferConfig) (inflows.take k)).level_s
          ≤ defaultBufferConfig.max_level_s) ∧
    (∀ k : ℕ,
        (0 ≤ (NetworkCondition.step defaultNetworkConfig opsZero
                (NetworkCondition.iter defaultNetworkConfig opsZero k
                  (NetworkCondition.make zeroDraws))).1.congestion_level ∧
         (NetworkCondition.step defaultNetworkConfig opsZero
                (NetworkCondition.iter defaultNetworkConfig opsZero k
                  (NetworkCondition.make zeroDraws))).1.congestion_level ≤ 1) ∧
        (0 ≤ (NetworkCondition.step defaultNetworkConfig opsZero
                (NetworkCondition.iter defaultNetworkConfig opsZero k
                  (NetworkCondition.make zeroDraws))).1.packet_loss ∧
         (NetworkCondition.step defaultNetworkConfig opsZero
                (NetworkCondition.iter defaultNetworkConfig opsZero k
                  (NetworkCondition.make zeroDraws))).1.packet_loss ≤ 1)) :=
  buffer_network_bounds defaultBufferConfig defaultNetworkConfig opsZero zeroDraws
    (by norm_num [defaultBufferConfig]) (by norm_num [defaultBufferConfig])
    (by norm_num [defaultBufferConfig]) (by norm_num [defaultBufferConfig])
    (by norm_num [defaultNetworkConfig]) (by norm_num [defaultNetworkConfig])
    (by norm_num [defaultNetworkConfig]) (by norm_num [defaultNetworkConfig])

/-- C1 counterexample: with a packet-loss floor of 19/20 — a probability, so
inside its documented range, and unconstrained by any construction check —
certain total congestion drives the packet loss returned by the first network
step to 21/20 > 1, refuting the claim that packet loss stays within [0, 1]
for every valid configuration. -/
theorem packet_loss_exceeds_one_cex :
    1 < (NetworkCondition.step netCfgLossy opsZero
          (NetworkCondition.make zeroDraws)).1.packet_loss := by
  norm_num [NetworkCondition.step, NetworkCondition.make, Rng.next,
    netCfgLossy, opsZero, zeroDraws, min_def]

/-! ## C9: construction-time validation -/

/-- C9: `StreamBuffer` construction succeeds iff the rebuffer threshold does
not exceed the maximum level, and `QualityMetrics` construction succeeds iff
the three weights sum to 1 within the 1e-9 tolerance; both checks run
synchronously in the constructor and no other parameter is validated. -/
theorem construction_error_conditions (bc : BufferConfig) (mc : MetricsConfig) :
    ((∃ s, StreamBuffer.make bc = .ok s) ↔
      bc.rebuffer_threshold_s ≤ bc.max_level_s) ∧
    ((∃ m, QualityMetrics.make mc = .ok m) ↔
      |mc.jerk_weight + mc.av_sync_weight + mc.quality_stability_weight - 1|
        ≤ 1/1000000000) := by
  constructor
  · simp only [StreamBuffer.make, gt_iff_lt]
    split_ifs with h
    · simp [not_le.mpr h]
    · simp [not_lt.mp h]
  · simp only [QualityMetrics.make, gt_iff_lt]
    split_ifs with h
    · constructor
      · rintro ⟨m, hm⟩
        cases hm
      · intro hle
        exact absurd hle (not_le.mpr h)
    · exact ⟨fun _ => not_lt.mp h, fun _ => ⟨mc, rfl⟩⟩

/-! ## C4 / C5: encoder quality selection and hysteresis -/

/-- Closed form of the ladder scan `_select_quality_index`. -/
theorem selectQualityIndex_eq (e : ℚ) :
    StreamEncoder.selectQualityIndex e =
      if 10 ≤ e then 6 else if 8 ≤ e then 5 else if 6 ≤ e then 4
      else if 4 ≤ e then 3 else if 5/2 ≤ e then 2 else if 6/5 ≤ e then 1
      else 0 := by
  simp only [StreamEncoder.selectQualityIndex, QUALITY_LADDER, List.enum,
    List.enumFrom, List.foldl, ge_iff_le, ite_self]

/-- The scan result is a valid ladder index. -/
theorem selectQualityIndex_lt_length (e : ℚ) :
    StreamEncoder.selectQualityIndex e < QUALITY_LADDER.length := by
  rw [selectQualityIndex_eq]
  split_ifs <;> simp [QUALITY_LADDER]

/-- Every ladder index whose threshold is met is at most the scan result. -/
theorem selectQualityIndex_highest (e : ℚ) :
    ∀ i < QUALITY_LADDER.length,
      (QUALITY_LADDER.getD i dummyLevel).min_bandwidth_mbps ≤ e →
        i ≤ StreamEncoder.selectQualityIndex e := by
  intro i hi hq
  rw [selectQualityIndex_eq]
  simp only [QUALITY_LADDER, List.length] at hi
  interval_cases i <;>
    simp only [QUALITY_LADDER, List.getD, List.get?, Option.getD] at hq <;>
    split_ifs <;> first | omega | linarith

/-- The scan result's own threshold is met, unless it is the fallback 0. -/
theorem selectQualityIndex_admissible (e : ℚ) :
    (QUALITY_LADDER.getD (StreamEncoder.selectQualityIndex e)
        dummyLevel).min_bandwidth_mbps ≤ e ∨
      StreamEncoder.selectQualityIndex e = 0 := by
  rw [selectQualityIndex_eq]
  split_ifs <;>
    first
      | (right; rfl)
      | (left; simp only [QUALITY_LADDER, List.getD, List.get?, Option.getD]; linarith)

/-- The quality-index / counter / switch-flag transition of one encoder
step, as a function of the target index. -/
theorem encoder_step_transition (cfg : EncoderConfig) (s : EncoderState)
    (bw : ℚ) (stalled : Bool) :
    (StreamEncoder.selectQualityIndex (bw * cfg.safety_factor) < s.quality_index →
      (StreamEncoder.step cfg s bw stalled).2.quality_index =
          StreamEncoder.selectQualityIndex (bw * cfg.safety_factor) ∧
        (StreamEncoder.step cfg s bw stalled).2.consecutive_upgrade_steps = 0 ∧
        (StreamEncoder.step cfg s bw stalled).1.quality_switch = true) ∧
    (s.quality_index < StreamEncoder.selectQualityIndex (bw * cfg.safety_factor) →
      ((cfg.upgrade_hysteresis ≤ s.consecutive_upgrade_steps + 1 →
        (StreamEncoder.step cfg s bw stalled).2.quality_index =
            StreamEncoder.selectQualityIndex (bw * cfg.safety_factor) ∧
          (StreamEncoder.step cfg s bw stalled).2.consecutive_upgrade_steps = 0 ∧
          (StreamEncoder.step cfg s bw stalled).1.quality_switch = true) ∧
       (s.consecutive_upgrade_steps + 1 < cfg.upgrade_hysteresis →
        (StreamEncoder.step cfg s bw stalled).2.quality_index = s.quality_index ∧
          (StreamEncoder.step cfg s bw stalled).2.consecutive_upgrade_steps =
            s.consecutive_upgrade_steps + 1 ∧
          (StreamEncoder.step cfg s bw stalled).1.quality_switch = false))) ∧
    (StreamEncoder.selectQualityIndex (bw * cfg.safety_factor) = s.quality_index →
      (StreamEncoder.step cfg s bw stalled).2.quality_index = s.quality_index ∧
        (StreamEncoder.step cfg s bw stalled).2.consecutive_upgrade_steps = 0 ∧
        (StreamEncoder.step cfg s bw stalled).1.quality_switch = false) := by
  simp only [StreamEncoder.step, gt_iff_lt, ge_iff_le]
  split_ifs with h1 h2 h3 <;> dsimp only <;>
    refine ⟨fun hh => ?_, fun hh => ⟨fun hh2 => ?_, fun hh2 => ?_⟩, fun hh => ?_⟩ <;>
    first
      | exact ⟨rfl, rfl, rfl⟩
      | omega

/-- C4: one encoder step computes the target as the highest ladder index
whose minimum-bandwidth threshold is at most
`available_bandwidth * safety_factor` (index 0 when none qualifies); a target
below the current index is adopted immediately with the switch flag set and
the upgrade counter reset; a target above the current index increments the
upgrade counter and the index changes — with the switch flag set and the
counter reset — exactly on the step where the incremented counter reaches
the configured hysteresis count; an equal target resets the counter with no
switch. -/
theorem encoder_step_hysteresis (cfg : EncoderConfig) (s : EncoderState)
    (bw : ℚ) (stalled : Bool) :
    (StreamEncoder.selectQualityIndex (bw * cfg.safety_factor) < QUALITY_LADDER.length ∧
     (∀ i < QUALITY_LADDER.length,
        (QUALITY_LADDER.getD i dummyLevel).min_bandwidth_mbps ≤ bw * cfg.safety_factor →
          i ≤ StreamEncoder.selectQualityIndex (bw * cfg.safety_factor)) ∧
     ((QUALITY_LADDER.getD (StreamEncoder.selectQualityIndex (bw * cfg.safety_factor))
          dummyLevel).min_bandwidth_mbps ≤ bw * cfg.safety_factor ∨
        StreamEncoder.selectQualityIndex (bw * cfg.safety_factor) = 0)) ∧
    ((StreamEncoder.selectQualityIndex (bw * cfg.safety_factor) < s.quality_index →
      (StreamEncoder.step cfg s bw stalled).2.quality_index =
          StreamEncoder.selectQualityIndex (bw * cfg.safety_factor) ∧
        (StreamEncoder.step cfg s bw stalled).2.consecutive_upgrade_steps = 0 ∧
        (StreamEncoder.step cfg s bw stalled).1.quality_switch = true) ∧
     (s.quality_index < StreamEncoder.selectQualityIndex (bw * cfg.safety_factor) →
      ((cfg.upgrade_hysteresis ≤ s.consecutive_upgrade_steps + 1 →
        (StreamEncoder.step cfg s bw stalled).2.quality_index =
            StreamEncoder.selectQualityIndex (bw * cfg.safety_factor) ∧
          (StreamEncoder.step cfg s bw stalled).2.consecutive_upgrade_steps = 0 ∧
          (StreamEncoder.step cfg s bw stalled).1.quality_switch = true) ∧
       (s.consecutive_upgrade_steps + 1 < cfg.upgrade_hysteresis →
        (StreamEncoder.step cfg s bw stalled).2.quality_index = s.quality_index ∧
          (StreamEncoder.step cfg s bw stalled).2.consecutive_upgrade_steps =
            s.consecutive_upgrade_steps + 1 ∧
          (StreamEncoder.step cfg s bw stalled).1.quality_switch = false))) ∧
     (StreamEncoder.selectQualityIndex (bw * cfg.safety_factor) = s.quality_index →
      (StreamEncoder.step cfg s bw stalled).2.quality_index = s.quality_index ∧
        (StreamEncoder.step cfg s bw stalled).2.consecutive_upgrade_steps = 0 ∧
        (StreamEncoder.step cfg s bw stalled).1.quality_switch = false)) :=
  ⟨⟨selectQualityIndex_lt_length _, selectQualityIndex_highest _,
    selectQualityIndex_admissible _⟩,
   encoder_step_transition cfg s bw stalled⟩

/-- C5 (amended): when a quality change is committed — an upgrade whose
incremented counter has reached the hysteresis count, or any downgrade — the
quality index is set to the *target* index, which may differ from the current
index by more than one ladder rung in either direction; upgrades are not
capped at one rung per hysteresis window. -/
theorem upgrade_commits_target_index (cfg : EncoderConfig) (s : EncoderState)
    (bw : ℚ) (stalled : Bool) :
    (s.quality_index < StreamEncoder.selectQualityIndex (bw * cfg.safety_factor) →
     cfg.upgrade_hysteresis ≤ s.consecutive_upgrade_steps + 1 →
       (StreamEncoder.step cfg s bw stalled).2.quality_index =
           StreamEncoder.selectQualityIndex (bw * cfg.safety_factor) ∧
         (StreamEncoder.step cfg s bw stalled).1.quality_switch = true) ∧
    (StreamEncoder.selectQualityIndex (bw * cfg.safety_factor) < s.quality_index →
       (StreamEncoder.step cfg s bw stalled).2.quality_index =
           StreamEncoder.selectQualityIndex (bw * cfg.safety_factor) ∧
         (StreamEncoder.step cfg s bw stalled).1.quality_switch = true) := by
  have h := encoder_step_transition cfg s bw stalled
  exact ⟨fun h1 h2 => ⟨((h.2.1 h1).1 h2).1, ((h.2.1 h1).1 h2).2.2⟩,
         fun h1 => ⟨(h.1 h1).1, (h.1 h1).2.2⟩⟩

/-- C5 counterexample: with the default hysteresis of 3, two steps of
sustained 20 Mbps bandwidth bring the upgrade counter to 2 with the index
still 0, and the third step commits an upgrade that jumps from ladder index 0
straight to index 6, not by exactly one rung. -/
theorem upgrade_multi_rung_cex :
    encPump2.quality_index = 0 ∧
    (StreamEncoder.step defaultEncoderConfig encPump2 20 false).1.quality_switch = true ∧
    (StreamEncoder.step defaultEncoderConfig encPump2 20 false).2.quality_index = 6 ∧
    (StreamEncoder.step defaultEncoderConfig encPump2 20 false).2.quality_index ≠
      encPump2.quality_index + 1 := by
  norm_num [encPump2, defaultEncoderConfig, StreamEncoder.run, StreamEncoder.step,
    StreamEncoder.make, StreamEncoder.selectQualityIndex, QUALITY_LADDER,
    List.enum, List.enumFrom, List.foldl, Rng.next, zeroDraws]

/-! ## C7: aggregate score formulas -/

/-- C7: on a non-empty record, `compute` returns component scores equal to
jerkiness = 10·max(0, 1 − 3·stall_ratio − dropped_frame_ratio),
sync = 10·max(0, 1 − out_of_sync_ratio − min(mean_drift/(10·threshold), 1)),
stability = 10·max(0, 1 − switch_rate_per_minute/6) with
switch_rate_per_minute = switches/n·60, and
overall = jerk_weight·jerkiness + sync_weight·sync + stability_weight·stability,
where the ratios are the corresponding fractions of recorded steps and
mean_drift the mean absolute drift. -/
theorem compute_score_formulas (c : MetricsConfig) (steps : List Snapshot)
    (h : steps ≠ []) :
    ∃ m, QualityMetrics.compute c steps = some m ∧
      m.jerkiness_score =
        10 * max 0 (1 - 3 * (((steps.filter (fun s => s.is_stalled)).length : ℚ)
            / (steps.length : ℚ))
          - ((steps.filter (fun s => s.dropped_frames)).length : ℚ)
            / (steps.length : ℚ)) ∧
      m.av_sync_score =
        10 * max 0 (1 - (((steps.map (fun s => |s.av_sync_drift_ms|)).filter
              (fun d => c.av_sync_threshold_ms < d)).length : ℚ)
            / (steps.length : ℚ)
          - min ((steps.map (fun s => |s.av_sync_drift_ms|)).sum / (steps.length : ℚ)
              / (10 * c.av_sync_threshold_ms)) 1) ∧
      m.quality_stability_score =
        10 * max 0 (1 - ((steps.filter (fun s => s.quality_switch)).length : ℚ)
            / (steps.length : ℚ) * 60 / 6) ∧
      m.overall_qoe =
        c.jerk_weight * m.jerkiness_score + c.av_sync_weight * m.av_sync_score
          + c.quality_stability_weight * m.quality_stability_score := by
  have hn : steps.length ≠ 0 := fun hh => h (List.length_eq_zero.mp hh)
  unfold QualityMetrics.compute
  rw [if_neg hn]
  exact ⟨_, rfl, rfl, rfl, rfl, rfl⟩

/-- Witness for `compute_score_formulas` on a one-snapshot record. -/
theorem compute_score_formulas_witness :
    ∃ m, QualityMetrics.compute defaultMetricsConfig [snapA] = some m ∧
      m.jerkiness_score =
        10 * max 0 (1 - 3 * ((([snapA].filter (fun s => s.is_stalled)).length : ℚ)
            / (([snapA] : List Snapshot).length : ℚ))
          - (([snapA].filter (fun s => s.dropped_frames)).length : ℚ)
            / (([snapA] : List Snapshot).length : ℚ)) ∧
      m.av_sync_score =
        10 * max 0 (1 - ((([snapA].map (fun s => |s.av_sync_drift_ms|)).filter
              (fun d => defaultMetricsConfig.av_sync_threshold_ms < d)).length : ℚ)
            / (([snapA] : List Snapshot).length : ℚ)
          - min (([snapA].map (fun s => |s.av_sync_drift_ms|)).sum
                / (([snapA] : List Snapshot).length : ℚ)
              / (10 * defaultMetricsConfig.av_sync_threshold_ms)) 1) ∧
      m.quality_stability_score =
        10 * max 0 (1 - (([snapA].filter (fun s => s.quality_switch)).length : ℚ)
            / (([snapA] : List Snapshot).length : ℚ) * 60 / 6) ∧
      m.overall_qoe =
        defaultMetricsConfig.jerk_weight * m.jerkiness_score
          + defaultMetricsConfig.av_sync_weight * m.av_sync_score
          + defaultMetricsConfig.quality_stability_weight * m.quality_stability_score :=
  compute_score_formulas defaultMetricsConfig [snapA] (by simp)

/-! ## C8: drift growth when entering a stall -/

/-- A switch-free encoder step updates the drift by
`drift·decay + noise·draw + (5 if the buffer-state input is stalled)`, and
stores the same drift it returns. -/
theorem StreamEncoder.step_noswitch_drift (cfg : EncoderConfig) (s : EncoderState)
    (bw : ℚ) (stalled : Bool)
    (hsw : (StreamEncoder.step cfg s bw stalled).1.quality_switch = false) :
    (StreamEncoder.step cfg s bw stalled).1.av_sync_drift_ms =
      s.av_sync_drift_ms * cfg.av_sync_decay
        + cfg.av_sync_noise * s.rng.draws s.rng.pos
        + (if stalled then (5:ℚ) else 0) ∧
    (StreamEncoder.step cfg s bw stalled).2.av_sync_drift_ms =
      (StreamEncoder.step cfg s bw stalled).1.av_sync_drift_ms := by
  revert hsw
  simp only [StreamEncoder.step, Rng.next]
  split_ifs with h1 h2 h3 <;> dsimp only <;> intro hsw <;>
    first
      | exact hsw.elim
      | exact ⟨by simp, by trivial⟩

/-- C8 (amended): with the drift noise configured to zero, nonnegative decay,
nonnegative pre-step drift, the same bandwidth on both steps and no quality
switch on either, the absolute drift produced by a step whose buffer-state
input is stalled strictly exceeds the absolute drift of the immediately
preceding non-stalled step — provided the preceding step's drift output d
satisfies d·(1 − decay) < 5, i.e. lies below the stall-penalty fixed point
5/(1 − decay).  Above that bound the magnitude can shrink (see the
counterexample), so the unconditional claim fails. -/
theorem drift_growth_on_stall_entry (cfg : EncoderConfig) (s : EncoderState)
    (bw : ℚ)
    (hnoise : cfg.av_sync_noise = 0)
    (hdec0 : 0 ≤ cfg.av_sync_decay)
    (hdrift : 0 ≤ s.av_sync_drift_ms)
    (hswA : (StreamEncoder.step cfg s bw false).1.quality_switch = false)
    (hswB : (StreamEncoder.step cfg (StreamEncoder.step cfg s bw false).2 bw
        true).1.quality_switch = false)
    (hsmall : (StreamEncoder.step cfg s bw false).1.av_sync_drift_ms
        * (1 - cfg.av_sync_decay) < 5) :
    |(StreamEncoder.step cfg s bw false).1.av_sync_drift_ms| <
      |(StreamEncoder.step cfg (StreamEncoder.step cfg s bw false).2 bw
          true).1.av_sync_drift_ms| := by
  have hA := StreamEncoder.step_noswitch_drift cfg s bw false hswA
  have hB := StreamEncoder.step_noswitch_drift cfg
    (StreamEncoder.step cfg s bw false).2 bw true hswB
  have h1 : (StreamEncoder.step cfg s bw false).1.av_sync_drift_ms =
      s.av_sync_drift_ms * cfg.av_sync_decay := by
    rw [hA.1, hnoise]
    simp
  have hApos : 0 ≤ (StreamEncoder.step cfg s bw false).1.av_sync_drift_ms := by
    rw [h1]
    exact mul_nonneg hdrift hdec0
  have h2 : (StreamEncoder.step cfg (StreamEncoder.step cfg s bw false).2 bw
      true).1.av_sync_drift_ms =
      (StreamEncoder.step cfg s bw false).1.av_sync_drift_ms * cfg.av_sync_decay
        + 5 := by
    rw [hB.1, hA.2, hnoise]
    simp
  rw [abs_of_nonneg hApos, h2, abs_of_nonneg (by nlinarith)]
  nlinarith

/-- Witness for `drift_growth_on_stall_entry`: from a freshly constructed
zero-noise encoder at 5 Mbps, the first stalled step produces drift 5 against
the preceding step's drift 0. -/
theorem drift_growth_on_stall_entry_witness :
    |(StreamEncoder.step encCfgNoiseless (StreamEncoder.make zeroDraws)
        5 false).1.av_sync_drift_ms| <
      |(StreamEncoder.step encCfgNoiseless
          (StreamEncoder.step encCfgNoiseless (StreamEncoder.make zeroDraws)
            5 false).2 5 true).1.av_sync_drift_ms| :=
  drift_growth_on_stall_entry encCfgNoiseless (StreamEncoder.make zeroDraws) 5
    (by norm_num [encCfgNoiseless])
    (by norm_num [encCfgNoiseless])
    (by norm_num [StreamEncoder.make])
    (by norm_num [StreamEncoder.step, StreamEncoder.make, Rng.next, zeroDraws,
      StreamEncoder.selectQualityIndex, QUALITY_LADDER, List.enum,
      List.enumFrom, List.foldl, encCfgNoiseless])
    (by norm_num [StreamEncoder.step, StreamEncoder.make, Rng.next, zeroDraws,
      StreamEncoder.selectQualityIndex, QUALITY_LADDER, List.enum,
      List.enumFrom, List.foldl, encCfgNoiseless])
    (by norm_num [StreamEncoder.step, StreamEncoder.make, Rng.next, zeroDraws,
      StreamEncoder.selectQualityIndex, QUALITY_LADDER, List.enum,
      List.enumFrom, List.foldl, encCfgNoiseless])

/-- C8 counterexample: from a reachable zero-noise state with drift 119/4
(pumped by three switching stalled steps), a non-stalled switch-free step
yields drift 119/8 and the following stalled switch-free step at the same
bandwidth yields drift 199/16 — the magnitude *decreases*, refuting the
unconditional claim for every reachable state. -/
theorem drift_decreases_large_drift_cex :
    encCfgFast.av_sync_noise = 0 ∧
    encStepA.1.quality_switch = false ∧
    encStepB.1.quality_switch = false ∧
    encStepA.1.av_sync_drift_ms = 119/8 ∧
    encStepB.1.av_sync_drift_ms = 199/16 ∧
    ¬ (|encStepA.1.av_sync_drift_ms| < |encStepB.1.av_sync_drift_ms|) := by
  have hA : encStepA.1.av_sync_drift_ms = 119/8 := by
    norm_num [encStepA, encPumped, encCfgFast, StreamEncoder.run,
      StreamEncoder.step, StreamEncoder.make, Rng.next, zeroDraws,
      StreamEncoder.selectQualityIndex, QUALITY_LADDER, List.enum,
      List.enumFrom, List.foldl]
  have hB : encStepB.1.av_sync_drift_ms = 199/16 := by
    norm_num [encStepB, encStepA, encPumped, encCfgFast, StreamEncoder.run,
      StreamEncoder.step, StreamEncoder.make, Rng.next, zeroDraws,
      StreamEncoder.selectQualityIndex, QUALITY_LADDER, List.enum,
      List.enumFrom, List.foldl]
  refine ⟨rfl, ?_, ?_, hA, hB, ?_⟩
  · norm_num [encStepA, encPumped, encCfgFast, StreamEncoder.run,
      StreamEncoder.step, StreamEncoder.make, Rng.next, zeroDraws,
      StreamEncoder.selectQualityIndex, QUALITY_LADDER, List.enum,
      List.enumFrom, List.foldl]
  · norm_num [encStepB, encStepA, encPumped, encCfgFast, StreamEncoder.run,
      StreamEncoder.step, StreamEncoder.make, Rng.next, zeroDraws,
      StreamEncoder.selectQualityIndex, QUALITY_LADDER, List.enum,
      List.enumFrom, List.foldl]
  · rw [hA, hB, abs_of_nonneg (by norm_num), abs_of_nonneg (by norm_num)]
    norm_num

/-! ## C2: determinism -/

/-- C2 (amended): two `run()` calls on two freshly constructed simulation
objects with identical configuration and identical seed — hence identical
oracle streams for the network and encoder generators — produce identical
reports (score outputs and timelines).  Determinism does *not* extend to
repeated `run()` calls on the same object, because `network.reset()` re-draws
the phase from the already-advanced generator and the encoder generator is
never reseeded (see the counterexample). -/
theorem run_deterministic_fresh_pair (cfg1 cfg2 : SimConfig) (ops : RealOps)
    (d1 d2 e1 e2 : ℕ → ℚ)
    (hcfg : cfg1 = cfg2) (hd : d1 = d2) (he : e1 = e2) :
    (TwitchStreamSimulation.run cfg1 ops
        (TwitchStreamSimulation.make cfg1 d1 e1)).1 =
      (TwitchStreamSimulation.run cfg2 ops
        (TwitchStreamSimulation.make cfg2 d2 e2)).1 := by
  subst hcfg
  subst hd
  subst he
  rfl

/-- Witness for `run_deterministic_fresh_pair` at a concrete configuration
and streams. -/
theorem run_deterministic_fresh_pair_witness :
    (TwitchStreamSimulation.run simCfgSmall opsId
        (TwitchStreamSimulation.make simCfgSmall natDraws natDraws)).1 =
      (TwitchStreamSimulation.run simCfgSmall opsId
        (TwitchStreamSimulation.make simCfgSmall natDraws natDraws)).1 :=
  run_deterministic_fresh_pair simCfgSmall simCfgSmall opsId
    natDraws natDraws natDraws natDraws rfl rfl rfl

/-- C2 counterexample: on the same simulation object, the first and second
`run()` calls return different reports — the sole timeline entry carries
bandwidth 26 on the first run but 110 on the second, because the second
`network.reset()` draws a fresh phase from the advanced generator stream. -/
theorem repeated_run_not_deterministic_cex :
    simRun1.1.timeline.map (fun e => e.bandwidth_mbps) = [26] ∧
    simRun2.1.timeline.map (fun e => e.bandwidth_mbps) = [110] ∧
    simRun1.1 ≠ simRun2.1 := by
  have h1 : simRun1.1.timeline.map (fun e => e.bandwidth_mbps) = [26] := by
    norm_num [simRun1, simCfgSmall, opsId, natDraws,
      TwitchStreamSimulation.run, TwitchStreamSimulation.make,
      TwitchStreamSimulation.loopStep,
      NetworkCondition.make, NetworkCondition.resetState, NetworkCondition.step,
      NetworkCondition.netDt,
      StreamBuffer.initState, StreamBuffer.resetState, StreamBuffer.step,
      StreamEncoder.make, StreamEncoder.resetState, StreamEncoder.step,
      StreamEncoder.selectQualityIndex,
      QualityLevel.total_mbps, QualityLevel.total_kbps,
      QUALITY_LADDER, List.enum, List.enumFrom, List.foldl,
      defaultNetworkConfig, defaultBufferConfig, defaultEncoderConfig,
      defaultMetricsConfig, Rng.next, max_def, min_def, List.range_succ]
  have h2 : simRun2.1.timeline.map (fun e => e.bandwidth_mbps) = [110] := by
    norm_num [simRun2, simRun1, simCfgSmall, opsId, natDraws,
      TwitchStreamSimulation.run, TwitchStreamSimulation.make,
      TwitchStreamSimulation.loopStep,
      NetworkCondition.make, NetworkCondition.resetState, NetworkCondition.step,
      NetworkCondition.netDt,
      StreamBuffer.initState, StreamBuffer.resetState, StreamBuffer.step,
      StreamEncoder.make, StreamEncoder.resetState, StreamEncoder.step,
      StreamEncoder.selectQualityIndex,
      QualityLevel.total_mbps, QualityLevel.total_kbps,
      QUALITY_LADDER, List.enum, List.enumFrom, List.foldl,
      defaultNetworkConfig, defaultBufferConfig, defaultEncoderConfig,
      defaultMetricsConfig, Rng.next, max_def, min_def, List.range_succ]
  refine ⟨h1, h2, fun h => ?_⟩
  rw [h, h2] at h1
  cases h1

end TwitchModel
